import Mathlib

/-!
Verification of `src/runtime_stub.c` of nbjit.jl: a C-callable indirection
layer of eight function-pointer slots, set by `nbjit_init_runtime` and read
by eight forwarding stubs.

Shallow embedding conventions:
* `void*` opaque handles are word-sized values, modelled as `Nat`.
* `int64_t` is modelled as `Int`; the predicate `isInt64` marks the values
  representable in 64 signed bits (the shim does no arithmetic, so no
  wrap-around occurs anywhere).
* `double` is passed through bit-for-bit and never interpreted by the shim,
  so it is modelled as its 64-bit pattern, a `Nat`.
* `const char*` is modelled as the text it points to, a `String`.
* A nullable C function pointer is an `Option` of the function type; the
  static initializer `= 0` is `none`.
* The global mutable table is threaded explicitly: each stub takes the
  current `RuntimeTable` and returns its result paired with the table it
  leaves behind.  Calling through a null function pointer (the C code's
  behavior before any install) is embedded as the uninitialized-binding
  fault `Except.error Fault.nullBinding`.
-/

namespace NbJit

/-- An opaque `void*` handle owned by the host runtime, passed through
uninterpreted; modelled as the pointer word. -/
abbrev Handle : Type := Nat

/-- A C `int64_t` value; modelled as `Int`, with `isInt64` delimiting the
representable range. -/
abbrev Int64 : Type := Int

/-- A C `double`, never interpreted by the shim; modelled as its 64-bit
pattern. -/
abbrev Float64 : Type := Nat

/-- A C `const char*` argument; modelled as the text it points to. -/
abbrev CStr : Type := String

/-- `v` is representable as a signed 64-bit integer. -/
def isInt64 (v : Int) : Prop := -(2 ^ 63) ≤ v ∧ v < 2 ^ 63

instance (v : Int) : Decidable (isInt64 v) :=
  inferInstanceAs (Decidable (-(2 ^ 63) ≤ v ∧ v < 2 ^ 63))

/-- The fault raised when a forwarding stub is entered while its slot still
holds the null pointer (`fp_... = 0`). -/
inductive Fault : Type where
  | nullBinding : Fault
deriving DecidableEq

/-- The indirection table: the eight static function pointers of
`runtime_stub.c` (lines 31-38).  Each slot is `none` when the C pointer is
null. -/
structure RuntimeTable : Type where
  fp_dict_new : Option (Unit → Handle)
  fp_dict_getindex : Option (Handle → Handle → Handle)
  fp_dict_setindex_bang : Option (Handle → Handle → Handle → Unit)
  fp_symbol_from_cstr : Option (CStr → Handle)
  fp_box_int64 : Option (Int64 → Handle)
  fp_box_float64 : Option (Float64 → Handle)
  fp_unbox_int64 : Option (Handle → Int64)
  fp_unbox_float64 : Option (Handle → Float64)

/-- The table at process/module load: every static pointer is initialized
to `0` (lines 31-38 of the source). -/
def loadTable : RuntimeTable :=
  { fp_dict_new := none
    fp_dict_getindex := none
    fp_dict_setindex_bang := none
    fp_symbol_from_cstr := none
    fp_box_int64 := none
    fp_box_float64 := none
    fp_unbox_int64 := none
    fp_unbox_float64 := none }

/-- `nbjit_init_runtime` (lines 41-59): stores each of its eight arguments
into the corresponding slot, ignoring the previous table contents.  The C
parameters are untyped `void*`, so a null argument (`none`) is stored as
given, without validation. -/
def nbjit_init_runtime
    (dict_new : Option (Unit → Handle))
    (dict_getindex : Option (Handle → Handle → Handle))
    (dict_setindex_bang : Option (Handle → Handle → Handle → Unit))
    (symbol_from_cstr : Option (CStr → Handle))
    (box_int64 : Option (Int64 → Handle))
    (box_float64 : Option (Float64 → Handle))
    (unbox_int64 : Option (Handle → Int64))
    (unbox_float64 : Option (Handle → Float64))
    (_s : RuntimeTable) : RuntimeTable :=
  { fp_dict_new := dict_new
    fp_dict_getindex := dict_getindex
    fp_dict_setindex_bang := dict_setindex_bang
    fp_symbol_from_cstr := symbol_from_cstr
    fp_box_int64 := box_int64
    fp_box_float64 := box_float64
    fp_unbox_int64 := unbox_int64
    fp_unbox_float64 := unbox_float64 }

/-- `nbjit_dict_new` (lines 62-64): `return fp_dict_new();` — reads the
slot and calls through it; a null slot is the uninitialized-binding
fault. -/
def nbjit_dict_new (s : RuntimeTable) : Except Fault (Handle × RuntimeTable) :=
  match s.fp_dict_new with
  | none => Except.error Fault.nullBinding
  | some f => Except.ok (f (), s)

/-- `nbjit_dict_getindex` (lines 66-68): forwards `(dict, key)` to the
slot. -/
def nbjit_dict_getindex (dict key : Handle) (s : RuntimeTable) :
    Except Fault (Handle × RuntimeTable) :=
  match s.fp_dict_getindex with
  | none => Except.error Fault.nullBinding
  | some f => Except.ok (f dict key, s)

/-- `nbjit_dict_setindex_bang` (lines 70-72): forwards
`(dict, value, key)` to the slot; returns void. -/
def nbjit_dict_setindex_bang (dict value key : Handle) (s : RuntimeTable) :
    Except Fault (Unit × RuntimeTable) :=
  match s.fp_dict_setindex_bang with
  | none => Except.error Fault.nullBinding
  | some f => Except.ok (f dict value key, s)

/-- `nbjit_symbol_from_cstr` (lines 74-76): forwards `str` to the slot. -/
def nbjit_symbol_from_cstr (str : CStr) (s : RuntimeTable) :
    Except Fault (Handle × RuntimeTable) :=
  match s.fp_symbol_from_cstr with
  | none => Except.error Fault.nullBinding
  | some f => Except.ok (f str, s)

/-- `nbjit_box_int64` (lines 78-80): forwards `val` to the slot. -/
def nbjit_box_int64 (val : Int64) (s : RuntimeTable) :
    Except Fault (Handle × RuntimeTable) :=
  match s.fp_box_int64 with
  | none => Except.error Fault.nullBinding
  | some f => Except.ok (f val, s)

/-- `nbjit_box_float64` (lines 82-84): forwards `val` to the slot. -/
def nbjit_box_float64 (val : Float64) (s : RuntimeTable) :
    Except Fault (Handle × RuntimeTable) :=
  match s.fp_box_float64 with
  | none => Except.error Fault.nullBinding
  | some f => Except.ok (f val, s)

/-- `nbjit_unbox_int64` (lines 86-88): forwards `ptr` to the slot. -/
def nbjit_unbox_int64 (ptr : Handle) (s : RuntimeTable) :
    Except Fault (Int64 × RuntimeTable) :=
  match s.fp_unbox_int64 with
  | none => Except.error Fault.nullBinding
  | some f => Except.ok (f ptr, s)

/-- `nbjit_unbox_float64` (lines 90-92): forwards `ptr` to the slot. -/
def nbjit_unbox_float64 (ptr : Handle) (s : RuntimeTable) :
    Except Fault (Float64 × RuntimeTable) :=
  match s.fp_unbox_float64 with
  | none => Except.error Fault.nullBinding
  | some f => Except.ok (f ptr, s)

/-- A full set of eight host callables, as the host passes to
`nbjit_init_runtime` in the intended (all non-null) use. -/
structure HostBindings : Type where
  dict_new : Unit → Handle
  dict_getindex : Handle → Handle → Handle
  dict_setindex_bang : Handle → Handle → Handle → Unit
  symbol_from_cstr : CStr → Handle
  box_int64 : Int64 → Handle
  box_float64 : Float64 → Handle
  unbox_int64 : Handle → Int64
  unbox_float64 : Handle → Float64

/-- A call of `nbjit_init_runtime` with eight non-null callables. -/
def installBindings (b : HostBindings) (s : RuntimeTable) : RuntimeTable :=
  nbjit_init_runtime (some b.dict_new) (some b.dict_getindex)
    (some b.dict_setindex_bang) (some b.symbol_from_cstr)
    (some b.box_int64) (some b.box_float64)
    (some b.unbox_int64) (some b.unbox_float64) s

/-- A sequence of initializer calls, applied in order. -/
def runInits (bs : List HostBindings) (s : RuntimeTable) : RuntimeTable :=
  bs.foldl (fun t b => installBindings b t) s

/-- All eight slots hold a callable. -/
def allSlotsSet (s : RuntimeTable) : Prop :=
  s.fp_dict_new.isSome = true ∧ s.fp_dict_getindex.isSome = true ∧
  s.fp_dict_setindex_bang.isSome = true ∧ s.fp_symbol_from_cstr.isSome = true ∧
  s.fp_box_int64.isSome = true ∧ s.fp_box_float64.isSome = true ∧
  s.fp_unbox_int64.isSome = true ∧ s.fp_unbox_float64.isSome = true

/-- All eight slots are null, as at load time. -/
def allSlotsUnset (s : RuntimeTable) : Prop :=
  s.fp_dict_new = none ∧ s.fp_dict_getindex = none ∧
  s.fp_dict_setindex_bang = none ∧ s.fp_symbol_from_cstr = none ∧
  s.fp_box_int64 = none ∧ s.fp_box_float64 = none ∧
  s.fp_unbox_int64 = none ∧ s.fp_unbox_float64 = none

lemma allSlotsSet_installBindings (b : HostBindings) (s : RuntimeTable) :
    allSlotsSet (installBindings b s) :=
  ⟨rfl, rfl, rfl, rfl, rfl, rfl, rfl, rfl⟩

lemma allSlotsSet_runInits (bs : List HostBindings) (s : RuntimeTable)
    (h : allSlotsSet s) : allSlotsSet (runInits bs s) := by
  induction bs generalizing s with
  | nil => exact h
  | cons b bs ih => exact ih (installBindings b s) (allSlotsSet_installBindings b s)

/-- A concrete set of host stand-ins used to instantiate hypotheses in
witnesses: each callable has a distinct, recognizable behavior. -/
def wBindings : HostBindings :=
  { dict_new := fun _ => 11
    dict_getindex := fun d k => d + 2 * k
    dict_setindex_bang := fun _ _ _ => ()
    symbol_from_cstr := fun str => str.length
    box_int64 := fun v => if v = 42 then 100 else 0
    box_float64 := fun x => x + 5
    unbox_int64 := fun p => if p = 100 then 42 else 7
    unbox_float64 := fun p => p + 3 }

/-- The table after installing `wBindings` on the load-time table. -/
def wTable : RuntimeTable := installBindings wBindings loadTable

/-- C1: after `nbjit_init_runtime(f0..f7)` with eight installed callables,
each of the eight forwarding stubs calls exactly its own slot's callable,
passes its arguments to it verbatim, returns that callable's result
verbatim, and has no other effect (the table it leaves behind is the one it
was given). -/
theorem forwarding_calls_installed_slots (b : HostBindings) (s : RuntimeTable)
    (d k v p q : Handle) (str : CStr) (i : Int64) (x : Float64) :
    nbjit_dict_new (installBindings b s) =
      Except.ok (b.dict_new (), installBindings b s) ∧
    nbjit_dict_getindex d k (installBindings b s) =
      Except.ok (b.dict_getindex d k, installBindings b s) ∧
    nbjit_dict_setindex_bang d v k (installBindings b s) =
      Except.ok (b.dict_setindex_bang d v k, installBindings b s) ∧
    nbjit_symbol_from_cstr str (installBindings b s) =
      Except.ok (b.symbol_from_cstr str, installBindings b s) ∧
    nbjit_box_int64 i (installBindings b s) =
      Except.ok (b.box_int64 i, installBindings b s) ∧
    nbjit_box_float64 x (installBindings b s) =
      Except.ok (b.box_float64 x, installBindings b s) ∧
    nbjit_unbox_int64 p (installBindings b s) =
      Except.ok (b.unbox_int64 p, installBindings b s) ∧
    nbjit_unbox_float64 q (installBindings b s) =
      Except.ok (b.unbox_float64 q, installBindings b s) :=
  ⟨rfl, rfl, rfl, rfl, rfl, rfl, rfl, rfl⟩

/-- C2: in the load-time state, before `nbjit_init_runtime` has ever run,
every one of the eight forwarding stubs hits the uninitialized-binding
fault — a detected fatal error, not a successful return and not a silent
no-op. -/
theorem forwarding_before_init_faults
    (d k v p q : Handle) (str : CStr) (i : Int64) (x : Float64) :
    nbjit_dict_new loadTable = Except.error Fault.nullBinding ∧
    nbjit_dict_getindex d k loadTable = Except.error Fault.nullBinding ∧
    nbjit_dict_setindex_bang d v k loadTable = Except.error Fault.nullBinding ∧
    nbjit_symbol_from_cstr str loadTable = Except.error Fault.nullBinding ∧
    nbjit_box_int64 i loadTable = Except.error Fault.nullBinding ∧
    nbjit_box_float64 x loadTable = Except.error Fault.nullBinding ∧
    nbjit_unbox_int64 p loadTable = Except.error Fault.nullBinding ∧
    nbjit_unbox_float64 q loadTable = Except.error Fault.nullBinding :=
  ⟨rfl, rfl, rfl, rfl, rfl, rfl, rfl, rfl⟩

/-- C3: a second call of `nbjit_init_runtime` fully replaces the bindings
of a first call: the resulting table is the same as if only the second call
had happened, and every slot holds the second call's argument — no slot
retains a callable from the first set. -/
theorem reinit_replaces_all_bindings
    (a0 : Option (Unit → Handle)) (a1 : Option (Handle → Handle → Handle))
    (a2 : Option (Handle → Handle → Handle → Unit)) (a3 : Option (CStr → Handle))
    (a4 : Option (Int64 → Handle)) (a5 : Option (Float64 → Handle))
    (a6 : Option (Handle → Int64)) (a7 : Option (Handle → Float64))
    (b0 : Option (Unit → Handle)) (b1 : Option (Handle → Handle → Handle))
    (b2 : Option (Handle → Handle → Handle → Unit)) (b3 : Option (CStr → Handle))
    (b4 : Option (Int64 → Handle)) (b5 : Option (Float64 → Handle))
    (b6 : Option (Handle → Int64)) (b7 : Option (Handle → Float64))
    (s : RuntimeTable) :
    nbjit_init_runtime b0 b1 b2 b3 b4 b5 b6 b7
        (nbjit_init_runtime a0 a1 a2 a3 a4 a5 a6 a7 s) =
      nbjit_init_runtime b0 b1 b2 b3 b4 b5 b6 b7 s ∧
    (nbjit_init_runtime b0 b1 b2 b3 b4 b5 b6 b7
        (nbjit_init_runtime a0 a1 a2 a3 a4 a5 a6 a7 s)).fp_dict_new = b0 ∧
    (nbjit_init_runtime b0 b1 b2 b3 b4 b5 b6 b7
        (nbjit_init_runtime a0 a1 a2 a3 a4 a5 a6 a7 s)).fp_dict_getindex = b1 ∧
    (nbjit_init_runtime b0 b1 b2 b3 b4 b5 b6 b7
        (nbjit_init_runtime a0 a1 a2 a3 a4 a5 a6 a7 s)).fp_dict_setindex_bang = b2 ∧
    (nbjit_init_runtime b0 b1 b2 b3 b4 b5 b6 b7
        (nbjit_init_runtime a0 a1 a2 a3 a4 a5 a6 a7 s)).fp_symbol_from_cstr = b3 ∧
    (nbjit_init_runtime b0 b1 b2 b3 b4 b5 b6 b7
        (nbjit_init_runtime a0 a1 a2 a3 a4 a5 a6 a7 s)).fp_box_int64 = b4 ∧
    (nbjit_init_runtime b0 b1 b2 b3 b4 b5 b6 b7
        (nbjit_init_runtime a0 a1 a2 a3 a4 a5 a6 a7 s)).fp_box_float64 = b5 ∧
    (nbjit_init_runtime b0 b1 b2 b3 b4 b5 b6 b7
        (nbjit_init_runtime a0 a1 a2 a3 a4 a5 a6 a7 s)).fp_unbox_int64 = b6 ∧
    (nbjit_init_runtime b0 b1 b2 b3 b4 b5 b6 b7
        (nbjit_init_runtime a0 a1 a2 a3 a4 a5 a6 a7 s)).fp_unbox_float64 = b7 :=
  ⟨rfl, rfl, rfl, rfl, rfl, rfl, rfl, rfl, rfl⟩

/-- C4: one call of `nbjit_init_runtime` writes all eight slots: in the
post-state every slot holds exactly the corresponding argument of that
call, whatever the prior table was — no slot is left stale. -/
theorem init_writes_all_eight_slots
    (x0 : Option (Unit → Handle)) (x1 : Option (Handle → Handle → Handle))
    (x2 : Option (Handle → Handle → Handle → Unit)) (x3 : Option (CStr → Handle))
    (x4 : Option (Int64 → Handle)) (x5 : Option (Float64 → Handle))
    (x6 : Option (Handle → Int64)) (x7 : Option (Handle → Float64))
    (s : RuntimeTable) :
    (nbjit_init_runtime x0 x1 x2 x3 x4 x5 x6 x7 s).fp_dict_new = x0 ∧
    (nbjit_init_runtime x0 x1 x2 x3 x4 x5 x6 x7 s).fp_dict_getindex = x1 ∧
    (nbjit_init_runtime x0 x1 x2 x3 x4 x5 x6 x7 s).fp_dict_setindex_bang = x2 ∧
    (nbjit_init_runtime x0 x1 x2 x3 x4 x5 x6 x7 s).fp_symbol_from_cstr = x3 ∧
    (nbjit_init_runtime x0 x1 x2 x3 x4 x5 x6 x7 s).fp_box_int64 = x4 ∧
    (nbjit_init_runtime x0 x1 x2 x3 x4 x5 x6 x7 s).fp_box_float64 = x5 ∧
    (nbjit_init_runtime x0 x1 x2 x3 x4 x5 x6 x7 s).fp_unbox_int64 = x6 ∧
    (nbjit_init_runtime x0 x1 x2 x3 x4 x5 x6 x7 s).fp_unbox_float64 = x7 :=
  ⟨rfl, rfl, rfl, rfl, rfl, rfl, rfl, rfl⟩

/-- C5: at process/module load, before any call, every one of the eight
function-pointer slots holds the unset (null) value. -/
theorem load_state_all_slots_null :
    loadTable.fp_dict_new = none ∧ loadTable.fp_dict_getindex = none ∧
    loadTable.fp_dict_setindex_bang = none ∧ loadTable.fp_symbol_from_cstr = none ∧
    loadTable.fp_box_int64 = none ∧ loadTable.fp_box_float64 = none ∧
    loadTable.fp_unbox_int64 = none ∧ loadTable.fp_unbox_float64 = none :=
  ⟨rfl, rfl, rfl, rfl, rfl, rfl, rfl, rfl⟩

/-- C6: for every value `v` in the signed 64-bit range — the minimum
included — `nbjit_box_int64` passes exactly `v` to the installed
`box_int64` slot, with no truncation or reinterpretation; symmetrically,
`nbjit_unbox_int64` returns the slot callable's `int64` result
unchanged. -/
theorem box_unbox_int64_forward_full_range
    (g : Int64 → Handle) (h : Handle → Int64) (s : RuntimeTable)
    (hg : s.fp_box_int64 = some g) (hh : s.fp_unbox_int64 = some h)
    (v : Int64) (hv : isInt64 v) (p : Handle) :
    nbjit_box_int64 v s = Except.ok (g v, s) ∧
    nbjit_unbox_int64 p s = Except.ok (h p, s) := by
  refine ⟨?_, ?_⟩
  · unfold nbjit_box_int64
    rw [hg]
  · unfold nbjit_unbox_int64
    rw [hh]

/-- Witness for C6 at the range boundaries `-2^63`, `-1`, `0`, `2^63 - 1`:
each is forwarded unchanged through the concrete stand-in table
`wTable`. -/
theorem box_unbox_int64_forward_full_range_witness :
    (nbjit_box_int64 (-(2 ^ 63)) wTable =
        Except.ok (wBindings.box_int64 (-(2 ^ 63)), wTable) ∧
      nbjit_unbox_int64 5 wTable = Except.ok (wBindings.unbox_int64 5, wTable)) ∧
    (nbjit_box_int64 (-1) wTable =
        Except.ok (wBindings.box_int64 (-1), wTable) ∧
      nbjit_unbox_int64 5 wTable = Except.ok (wBindings.unbox_int64 5, wTable)) ∧
    (nbjit_box_int64 0 wTable =
        Except.ok (wBindings.box_int64 0, wTable) ∧
      nbjit_unbox_int64 5 wTable = Except.ok (wBindings.unbox_int64 5, wTable)) ∧
    (nbjit_box_int64 (2 ^ 63 - 1) wTable =
        Except.ok (wBindings.box_int64 (2 ^ 63 - 1), wTable) ∧
      nbjit_unbox_int64 5 wTable = Except.ok (wBindings.unbox_int64 5, wTable)) :=
  ⟨box_unbox_int64_forward_full_range wBindings.box_int64 wBindings.unbox_int64
      wTable rfl rfl (-(2 ^ 63)) (by decide) 5,
    box_unbox_int64_forward_full_range wBindings.box_int64 wBindings.unbox_int64
      wTable rfl rfl (-1) (by decide) 5,
    box_unbox_int64_forward_full_range wBindings.box_int64 wBindings.unbox_int64
      wTable rfl rfl 0 (by decide) 5,
    box_unbox_int64_forward_full_range wBindings.box_int64 wBindings.unbox_int64
      wTable rfl rfl (2 ^ 63 - 1) (by decide) 5⟩

/-- C7: states reachable from the load state by `nbjit_init_runtime` calls
with eight callables are exactly two kinds — the load state itself (all
slots null) and fully-populated states — and the transition is one-way:
after at least one initializer call the table has all slots populated and
is never again in the all-null state. -/
theorem init_transition_one_way (bs : List HostBindings) :
    (runInits bs loadTable = loadTable ∨ allSlotsSet (runInits bs loadTable)) ∧
    (bs ≠ [] →
      allSlotsSet (runInits bs loadTable) ∧
      ¬ allSlotsUnset (runInits bs loadTable)) := by
  have hset : bs ≠ [] → allSlotsSet (runInits bs loadTable) := by
    intro hne
    match bs with
    | [] => exact absurd rfl hne
    | b :: tl =>
        exact allSlotsSet_runInits tl (installBindings b loadTable)
          (allSlotsSet_installBindings b loadTable)
  refine ⟨?_, fun hne => ⟨hset hne, ?_⟩⟩
  · match bs with
    | [] => exact Or.inl rfl
    | b :: tl => exact Or.inr (hset (by simp))
  · intro hun
    have h1 := (hset hne).1
    rw [hun.1] at h1
    simp at h1

/-- Witness for C7 with the one-element call sequence `[wBindings]`. -/
theorem init_transition_one_way_witness :
    (runInits [wBindings] loadTable = loadTable ∨
      allSlotsSet (runInits [wBindings] loadTable)) ∧
    (allSlotsSet (runInits [wBindings] loadTable) ∧
      ¬ allSlotsUnset (runInits [wBindings] loadTable)) :=
  ⟨(init_transition_one_way [wBindings]).1,
    (init_transition_one_way [wBindings]).2 (by simp)⟩

/-- C8: with a stand-in `g` installed in the `box_int64` slot mapping
`42 ↦ H42` and a stand-in `h` installed in the (distinct, not aliased)
`unbox_int64` slot mapping `H42 ↦ 42`, boxing `42` yields `H42` and
unboxing `H42` yields `42`: the round trip through the two independent
bindings returns `42`. -/
theorem box_unbox_roundtrip
    (g : Int64 → Handle) (h : Handle → Int64) (H42 : Handle) (s : RuntimeTable)
    (hg : s.fp_box_int64 = some g) (hh : s.fp_unbox_int64 = some h)
    (hG : g 42 = H42) (hH : h H42 = 42) :
    nbjit_box_int64 42 s = Except.ok (H42, s) ∧
    nbjit_unbox_int64 H42 s = Except.ok (42, s) := by
  refine ⟨?_, ?_⟩
  · unfold nbjit_box_int64
    rw [hg]
    show Except.ok (g 42, s) = Except.ok (H42, s)
    rw [hG]
  · unfold nbjit_unbox_int64
    rw [hh]
    show Except.ok (h H42, s) = Except.ok ((42 : Int64), s)
    rw [hH]

/-- Witness for C8: in `wTable` the `box_int64` stand-in maps `42 ↦ 100`
and the behaviorally different `unbox_int64` stand-in maps `100 ↦ 42`. -/
theorem box_unbox_roundtrip_witness :
    nbjit_box_int64 42 wTable = Except.ok (100, wTable) ∧
    nbjit_unbox_int64 100 wTable = Except.ok (42, wTable) :=
  box_unbox_roundtrip wBindings.box_int64 wBindings.unbox_int64 100 wTable
    rfl rfl (by decide) (by decide)

/-- C9: every forwarding stub is read-only on the table: whenever its slot
is populated, the table it returns alongside its result is exactly the
table it was given — no slot changes. -/
theorem forwarding_preserves_table (s : RuntimeTable)
    (d k v p q : Handle) (str : CStr) (i : Int64) (x : Float64) :
    (∀ g, s.fp_dict_new = some g →
      nbjit_dict_new s = Except.ok (g (), s)) ∧
    (∀ g, s.fp_dict_getindex = some g →
      nbjit_dict_getindex d k s = Except.ok (g d k, s)) ∧
    (∀ g, s.fp_dict_setindex_bang = some g →
      nbjit_dict_setindex_bang d v k s = Except.ok (g d v k, s)) ∧
    (∀ g, s.fp_symbol_from_cstr = some g →
      nbjit_symbol_from_cstr str s = Except.ok (g str, s)) ∧
    (∀ g, s.fp_box_int64 = some g →
      nbjit_box_int64 i s = Except.ok (g i, s)) ∧
    (∀ g, s.fp_box_float64 = some g →
      nbjit_box_float64 x s = Except.ok (g x, s)) ∧
    (∀ g, s.fp_unbox_int64 = some g →
      nbjit_unbox_int64 p s = Except.ok (g p, s)) ∧
    (∀ g, s.fp_unbox_float64 = some g →
      nbjit_unbox_float64 q s = Except.ok (g q, s)) := by
  refine ⟨?_, ?_, ?_, ?_, ?_, ?_, ?_, ?_⟩ <;>
    intro g hg <;>
    first
    | (unfold nbjit_dict_new; rw [hg])
    | (unfold nbjit_dict_getindex; rw [hg])
    | (unfold nbjit_dict_setindex_bang; rw [hg])
    | (unfold nbjit_symbol_from_cstr; rw [hg])
    | (unfold nbjit_box_int64; rw [hg])
    | (unfold nbjit_box_float64; rw [hg])
    | (unfold nbjit_unbox_int64; rw [hg])
    | (unfold nbjit_unbox_float64; rw [hg])

/-- Witness for C9 on the concrete table `wTable`: each stub returns the
very table it was given. -/
theorem forwarding_preserves_table_witness :
    nbjit_dict_new wTable = Except.ok (wBindings.dict_new (), wTable) ∧
    nbjit_dict_getindex 3 4 wTable =
      Except.ok (wBindings.dict_getindex 3 4, wTable) ∧
    nbjit_dict_setindex_bang 3 8 4 wTable =
      Except.ok (wBindings.dict_setindex_bang 3 8 4, wTable) ∧
    nbjit_symbol_from_cstr "sym" wTable =
      Except.ok (wBindings.symbol_from_cstr "sym", wTable) ∧
    nbjit_box_int64 9 wTable = Except.ok (wBindings.box_int64 9, wTable) ∧
    nbjit_box_float64 6 wTable = Except.ok (wBindings.box_float64 6, wTable) ∧
    nbjit_unbox_int64 2 wTable = Except.ok (wBindings.unbox_int64 2, wTable) ∧
    nbjit_unbox_float64 1 wTable =
      Except.ok (wBindings.unbox_float64 1, wTable) := by
  obtain ⟨h0, h1, h2, h3, h4, h5, h6, h7⟩ :=
    forwarding_preserves_table wTable 3 4 8 2 1 "sym" 9 6
  exact ⟨h0 wBindings.dict_new rfl, h1 wBindings.dict_getindex rfl,
    h2 wBindings.dict_setindex_bang rfl, h3 wBindings.symbol_from_cstr rfl,
    h4 wBindings.box_int64 rfl, h5 wBindings.box_float64 rfl,
    h6 wBindings.unbox_int64 rfl, h7 wBindings.unbox_float64 rfl⟩

/-- C10: `nbjit_init_runtime` validates nothing: each argument, null
included, is stored into its slot verbatim; and after a call that passed
null for a slot, a forwarding call through that slot hits the same
uninitialized-binding fault as before any initialization. -/
theorem init_no_validation
    (x0 : Option (Unit → Handle)) (x1 : Option (Handle → Handle → Handle))
    (x2 : Option (Handle → Handle → Handle → Unit)) (x3 : Option (CStr → Handle))
    (x4 : Option (Int64 → Handle)) (x5 : Option (Float64 → Handle))
    (x6 : Option (Handle → Int64)) (x7 : Option (Handle → Float64))
    (s : RuntimeTable)
    (d k v p q : Handle) (str : CStr) (i : Int64) (x : Float64) :
    ((nbjit_init_runtime x0 x1 x2 x3 x4 x5 x6 x7 s).fp_dict_new = x0 ∧
      (nbjit_init_runtime x0 x1 x2 x3 x4 x5 x6 x7 s).fp_dict_getindex = x1 ∧
      (nbjit_init_runtime x0 x1 x2 x3 x4 x5 x6 x7 s).fp_dict_setindex_bang = x2 ∧
      (nbjit_init_runtime x0 x1 x2 x3 x4 x5 x6 x7 s).fp_symbol_from_cstr = x3 ∧
      (nbjit_init_runtime x0 x1 x2 x3 x4 x5 x6 x7 s).fp_box_int64 = x4 ∧
      (nbjit_init_runtime x0 x1 x2 x3 x4 x5 x6 x7 s).fp_box_float64 = x5 ∧
      (nbjit_init_runtime x0 x1 x2 x3 x4 x5 x6 x7 s).fp_unbox_int64 = x6 ∧
      (nbjit_init_runtime x0 x1 x2 x3 x4 x5 x6 x7 s).fp_unbox_float64 = x7) ∧
    (x0 = none →
      nbjit_dict_new (nbjit_init_runtime x0 x1 x2 x3 x4 x5 x6 x7 s) =
        nbjit_dict_new loadTable) ∧
    (x1 = none →
      nbjit_dict_getindex d k (nbjit_init_runtime x0 x1 x2 x3 x4 x5 x6 x7 s) =
        nbjit_dict_getindex d k loadTable) ∧
    (x2 = none →
      nbjit_dict_setindex_bang d v k (nbjit_init_runtime x0 x1 x2 x3 x4 x5 x6 x7 s) =
        nbjit_dict_setindex_bang d v k loadTable) ∧
    (x3 = none →
      nbjit_symbol_from_cstr str (nbjit_init_runtime x0 x1 x2 x3 x4 x5 x6 x7 s) =
        nbjit_symbol_from_cstr str loadTable) ∧
    (x4 = none →
      nbjit_box_int64 i (nbjit_init_runtime x0 x1 x2 x3 x4 x5 x6 x7 s) =
        nbjit_box_int64 i loadTable) ∧
    (x5 = none →
      nbjit_box_float64 x (nbjit_init_runtime x0 x1 x2 x3 x4 x5 x6 x7 s) =
        nbjit_box_float64 x loadTable) ∧
    (x6 = none →
      nbjit_unbox_int64 p (nbjit_init_runtime x0 x1 x2 x3 x4 x5 x6 x7 s) =
        nbjit_unbox_int64 p loadTable) ∧
    (x7 = none →
      nbjit_unbox_float64 q (nbjit_init_runtime x0 x1 x2 x3 x4 x5 x6 x7 s) =
        nbjit_unbox_float64 q loadTable) := by
  refine ⟨⟨rfl, rfl, rfl, rfl, rfl, rfl, rfl, rfl⟩,
    ?_, ?_, ?_, ?_, ?_, ?_, ?_, ?_⟩ <;>
    (intro h; subst h; rfl)

/-- Witness for C10: a call of `nbjit_init_runtime` with all eight
arguments null stores null everywhere, and each forwarding stub then faults
exactly as in the load state. -/
theorem init_no_validation_witness :
    ((nbjit_init_runtime none none none none none none none none wTable).fp_dict_new
        = none ∧
      (nbjit_init_runtime none none none none none none none none wTable).fp_dict_getindex
        = none ∧
      (nbjit_init_runtime none none none none none none none none wTable).fp_dict_setindex_bang
        = none ∧
      (nbjit_init_runtime none none none none none none none none wTable).fp_symbol_from_cstr
        = none ∧
      (nbjit_init_runtime none none none none none none none none wTable).fp_box_int64
        = none ∧
      (nbjit_init_runtime none none none none none none none none wTable).fp_box_float64
        = none ∧
      (nbjit_init_runtime none none none none none none none none wTable).fp_unbox_int64
        = none ∧
      (nbjit_init_runtime none none none none none none none none wTable).fp_unbox_float64
        = none) ∧
    nbjit_dict_new (nbjit_init_runtime none none none none none none none none wTable) =
      nbjit_dict_new loadTable ∧
    nbjit_unbox_int64 5 (nbjit_init_runtime none none none none none none none none wTable) =
      nbjit_unbox_int64 5 loadTable := by
  obtain ⟨hfields, h0, h1, h2, h3, h4, h5, h6, h7⟩ :=
    init_no_validation none none none none none none none none wTable
      3 4 8 5 1 "sym" 9 6
  exact ⟨hfields, h0 rfl, h6 rfl⟩

end NbJit
